import Mathlib

/-!
# Verification of the cost-tracking and trace-logging engine

Shallow embedding of `src/utils/metrics/cost_tracker.py`,
`src/utils/metrics/cost_analysis.py` and `src/utils/observability/__init__.py`.

Modelling conventions:
* Python `float` monetary amounts are modelled as exact rationals (`ℚ`);
  Python `int` token counts as `ℤ`.  Python `round(x, 6)` is modelled as
  round-half-to-even at six fractional decimal digits (`round6`).
* Python `dict` (insertion ordered, unique keys) is modelled as an
  association list `List (String × α)`; `d[k] = f(d.get(k, init))` is the
  `upsert` operation, which updates the first matching key in place and
  otherwise appends a fresh entry at the end, exactly as a Python dict does.
* `datetime.now().isoformat()` and `uuid.uuid4()` are modelled as explicit
  parameters (`now`, `trace_id`) supplied with each call.
* File-system effects are modelled by state fields: the CSV log is the list
  of rows appended so far, the JSON snapshot file is a `SnapshotFile` value.
  Whether an individual `open`/write raises is an input (`csv_ok`,
  `save_ok`); the `json.dump`/`json.load` round trip on the sessions mapping
  (string keys, int/float/str/dict values) is identity and is modelled by
  the snapshot file carrying the saved sessions value, with a distinguished
  `malformed` state for a file whose contents fail to parse.
* `logger.error(...)` calls are modelled by appending the message prefix to
  a `logged_errors` list, so that "caught and logged" is observable.
-/

/-! ## Association-list operations (Python dict) -/

/-- First-match lookup in an association list (Python `d.get(k)`). -/
def alookup {α : Type} (k : String) : List (String × α) → Option α
  | [] => none
  | (k', v) :: rest => if k' = k then some v else alookup k rest

/-- Python `d[k] = f(d[k])` after `if k not in d: d[k] = init`:
update the first matching entry in place, else append `(k, f init)`. -/
def upsert {α : Type} (k : String) (init : α) (f : α → α) :
    List (String × α) → List (String × α)
  | [] => [(k, f init)]
  | (k', v) :: rest =>
      if k' = k then (k', f v) :: rest else (k', v) :: upsert k init f rest

/-- Sum of a projection over the values of an association list. -/
def sum_by {α β : Type} [AddCommMonoid β] (g : α → β)
    (l : List (String × α)) : β :=
  (l.map fun p => g p.2).sum

/-! ## Rounding (`round(x, 6)` on exact rationals) -/

/-- Round a rational to the nearest integer, ties to even
(Python 3 `round` semantics). -/
def roundHalfEven (x : ℚ) : ℤ :=
  let f : ℤ := ⌊x⌋
  let r : ℚ := x - f
  if r < 1/2 then f
  else if 1/2 < r then f + 1
  else if f % 2 = 0 then f else f + 1

/-- `round(x, 6)`: round to six fractional decimal digits. -/
def round6 (x : ℚ) : ℚ :=
  (roundHalfEven (x * 1000000) : ℚ) / 1000000

/-! ## Pricing table and cost calculator (`cost_tracker.py` 36–125) -/

/-- `MODEL_PRICING`: cost per 1M tokens in USD, `(input, output)`. -/
def MODEL_PRICING : List (String × (ℚ × ℚ)) :=
  [ ("gpt-4o-mini", (0.150, 0.600)),
    ("gpt-4o", (5.00, 15.00)),
    ("gpt-4", (30.00, 60.00)),
    ("claude-3-5-sonnet-20241022", (3.00, 15.00)),
    ("claude-3-opus-20240229", (15.00, 75.00)),
    ("claude-3-haiku-20240307", (0.25, 1.25)) ]

/-- `MODEL_PRICING.get(model, MODEL_PRICING["gpt-4o-mini"])`. -/
def pricing_of (model : String) : ℚ × ℚ :=
  (alookup model MODEL_PRICING).getD
    ((alookup "gpt-4o-mini" MODEL_PRICING).getD (0, 0))

/-- Result dict of `CostTracker.calculate_cost`. -/
structure CostResult where
  input_cost : ℚ
  output_cost : ℚ
  total_cost : ℚ
deriving DecidableEq

/-- `CostTracker.calculate_cost` (cost_tracker.py 110–125): no input
validation; unknown models fall back to the `gpt-4o-mini` rates; the three
results are rounded to 6 decimal digits, the total being rounded once from
the unrounded sum. -/
def calculate_cost (model : String) (input_tokens output_tokens : ℤ) :
    CostResult :=
  let pricing := pricing_of model
  let input_cost : ℚ := ((input_tokens : ℚ) / 1000000) * pricing.1
  let output_cost : ℚ := ((output_tokens : ℚ) / 1000000) * pricing.2
  let total_cost : ℚ := input_cost + output_cost
  ⟨round6 input_cost, round6 output_cost, round6 total_cost⟩

/-! ## Call records and session rollups -/

/-- `LLMCallMetrics` dataclass (cost_tracker.py 19–33). -/
structure LLMCallMetrics where
  timestamp : String
  session_id : String
  agent_name : String
  model : String
  provider : String
  input_tokens : ℤ
  output_tokens : ℤ
  total_tokens : ℤ
  input_cost : ℚ
  output_cost : ℚ
  total_cost : ℚ
  latency_ms : ℚ
deriving DecidableEq

/-- A `{"calls": _, "tokens": _, "cost": _}` triple (per-agent / per-model
entry of a session rollup). -/
structure AgentStats where
  calls : ℤ
  tokens : ℤ
  cost : ℚ
deriving DecidableEq

/-- The zero-initialized triple `{"calls": 0, "tokens": 0, "cost": 0.0}`. -/
def zeroStats : AgentStats := ⟨0, 0, 0⟩

/-- One session's rollup dict (cost_tracker.py 211–220): `"agents"` is the
spec's `by_agent`, `"models"` the spec's `by_model`. -/
structure SessionData where
  session_id : String
  start_time : String
  last_update : String
  total_calls : ℤ
  total_tokens : ℤ
  total_cost : ℚ
  agents : List (String × AgentStats)
  models : List (String × AgentStats)
deriving DecidableEq

/-- The in-memory `self.session_costs` mapping. -/
def Sessions : Type := List (String × SessionData)

instance : DecidableEq Sessions := by
  unfold Sessions
  infer_instance

/-! ## Tracker state and operations (`CostTracker`) -/

/-- Contents of the `session_costs.json` snapshot file.  `snapshot s` is a
file written by `json.dump` of sessions `s` (whose `json.load` yields `s`
back); `malformed raw` is a file whose contents fail to parse. -/
inductive SnapshotFile : Type
  | absent : SnapshotFile
  | malformed (raw : String) : SnapshotFile
  | snapshot (sessions : Sessions) : SnapshotFile
deriving DecidableEq

/-- Observable state of one `CostTracker` instance together with its two
backing files and its error log. -/
structure TrackerState where
  csv_rows : List LLMCallMetrics
  session_costs : Sessions
  snapshot_file : SnapshotFile
  logged_errors : List String
deriving DecidableEq

/-- `CostTracker.__init__` (cost_tracker.py 66–89): load the snapshot if it
exists, falling back to `{}` with a logged error when parsing fails; create
the CSV (header only) when absent, keep it otherwise.  Construction is a
total function: it never raises. -/
def init_tracker (snap : SnapshotFile) (existing_csv : Option (List LLMCallMetrics)) :
    TrackerState :=
  match snap with
  | .absent => ⟨existing_csv.getD [], [], .absent, []⟩
  | .malformed raw =>
      ⟨existing_csv.getD [], [], .malformed raw, ["Failed to load session costs"]⟩
  | .snapshot s => ⟨existing_csv.getD [], s, .snapshot s, []⟩

/-- A freshly constructed tracker over an empty directory. -/
def empty_tracker : TrackerState := init_tracker .absent none

/-- Inputs of one `track_call` invocation, with the call's timestamp and
the success of the two file writes made explicit. -/
structure CallArgs where
  session_id : String
  agent_name : String
  model : String
  provider : String
  input_tokens : ℤ
  output_tokens : ℤ
  latency_ms : ℚ
  now : String
  csv_ok : Bool
  save_ok : Bool
deriving DecidableEq

/-- The `LLMCallMetrics` object built at cost_tracker.py 157–170. -/
def mkMetrics (a : CallArgs) : LLMCallMetrics :=
  let costs := calculate_cost a.model a.input_tokens a.output_tokens
  { timestamp := a.now
    session_id := a.session_id
    agent_name := a.agent_name
    model := a.model
    provider := a.provider
    input_tokens := a.input_tokens
    output_tokens := a.output_tokens
    total_tokens := a.input_tokens + a.output_tokens
    input_cost := costs.input_cost
    output_cost := costs.output_cost
    total_cost := costs.total_cost
    latency_ms := a.latency_ms }

/-- `CostTracker._log_to_csv` (cost_tracker.py 184–204): append one row;
any exception is caught inside and logged, never propagated. -/
def log_to_csv (st : TrackerState) (m : LLMCallMetrics) (ok : Bool) :
    TrackerState :=
  if ok then { st with csv_rows := st.csv_rows ++ [m] }
  else { st with logged_errors := st.logged_errors ++ ["Failed to log to CSV"] }

/-- The `+= 1 / += total_tokens / += total_cost` update applied to one
agents/models entry (cost_tracker.py 236–238 and 248–250). -/
def incStats (m : LLMCallMetrics) (s : AgentStats) : AgentStats :=
  ⟨s.calls + 1, s.tokens + m.total_tokens, s.cost + m.total_cost⟩

/-- The zero-initialized session dict created on first sight of a
`session_id` (cost_tracker.py 210–220). -/
def freshSession (m : LLMCallMetrics) : SessionData :=
  ⟨m.session_id, m.timestamp, m.timestamp, 0, 0, 0, [], []⟩

/-- The in-place mutation of one session dict (cost_tracker.py 222–250). -/
def incSession (m : LLMCallMetrics) (s : SessionData) : SessionData :=
  { s with
    last_update := m.timestamp
    total_calls := s.total_calls + 1
    total_tokens := s.total_tokens + m.total_tokens
    total_cost := s.total_cost + m.total_cost
    agents := upsert m.agent_name zeroStats (incStats m) s.agents
    models := upsert m.model zeroStats (incStats m) s.models }

/-- The pure part of `CostTracker._update_session` (cost_tracker.py
206–250): get-or-create the session entry, then increment it. -/
def update_session (m : LLMCallMetrics) (sessions : Sessions) : Sessions :=
  upsert m.session_id (freshSession m) (incSession m) sessions

/-- `CostTracker._save_session_costs` (cost_tracker.py 255–261): rewrite
the whole snapshot; any exception is caught inside and logged. -/
def save_session_costs (st : TrackerState) (ok : Bool) : TrackerState :=
  if ok then { st with snapshot_file := .snapshot st.session_costs }
  else { st with logged_errors := st.logged_errors ++ ["Failed to save session costs"] }

/-- `CostTracker.track_call` (cost_tracker.py 127–182): compute costs,
build the record, append to CSV, fold into the session rollup, persist the
snapshot, return the record.  No step raises towards the caller. -/
def track_call (st : TrackerState) (a : CallArgs) :
    LLMCallMetrics × TrackerState :=
  let m := mkMetrics a
  let st1 := log_to_csv st m a.csv_ok
  let st2 := { st1 with session_costs := update_session m st1.session_costs }
  let st3 := save_session_costs st2 a.save_ok
  (m, st3)

/-- A sequence of `track_call` invocations. -/
def run_calls (st : TrackerState) : List CallArgs → TrackerState
  | [] => st
  | a :: rest => run_calls (track_call st a).2 rest

/-- The Call Records returned by a sequence of `track_call` invocations. -/
def call_records (calls : List CallArgs) : List LLMCallMetrics :=
  calls.map mkMetrics

/-- `CostTracker.get_session_cost` (cost_tracker.py 263–265). -/
def get_session_cost (st : TrackerState) (session_id : String) :
    Option SessionData :=
  alookup session_id st.session_costs

/-- `CostTracker.get_all_sessions` (cost_tracker.py 267–269). -/
def get_all_sessions (st : TrackerState) : Sessions :=
  st.session_costs

/-! ## Derived record lists and sums used in invariant statements -/

/-- The records of a list belonging to one session. -/
def session_records (sid : String) (ms : List LLMCallMetrics) :
    List LLMCallMetrics :=
  ms.filter fun m => m.session_id = sid

/-- Sum of `total_cost` over a record list. -/
def records_cost (ms : List LLMCallMetrics) : ℚ :=
  (ms.map fun m => m.total_cost).sum

/-- Sum of `total_tokens` over a record list. -/
def records_tokens (ms : List LLMCallMetrics) : ℤ :=
  (ms.map fun m => m.total_tokens).sum

/-- All nine aggregate equalities of the session-rollup invariant, for one
session dict `s` against the records `rs` of that session. -/
def session_ok (s : SessionData) (rs : List LLMCallMetrics) : Prop :=
  s.total_calls = (rs.length : ℤ) ∧
  s.total_tokens = records_tokens rs ∧
  s.total_cost = records_cost rs ∧
  s.total_calls = sum_by AgentStats.calls s.agents ∧
  s.total_tokens = sum_by AgentStats.tokens s.agents ∧
  s.total_cost = sum_by AgentStats.cost s.agents ∧
  s.total_calls = sum_by AgentStats.calls s.models ∧
  s.total_tokens = sum_by AgentStats.tokens s.models ∧
  s.total_cost = sum_by AgentStats.cost s.models

/-- The session mapping obtained by folding records into rollups. -/
def sessions_of (ms : List LLMCallMetrics) : Sessions :=
  ms.foldl (fun acc m => update_session m acc) []

/-! ## Analysis path (`cost_analysis.py`) -/

/-- One per-session aggregate of `analyze_by_session` (cost_analysis.py
44–50): `calls`/`tokens`/`cost` plus `agents`/`models` breakdowns. -/
structure SessionAnalysis where
  calls : ℤ
  tokens : ℤ
  cost : ℚ
  agents : List (String × AgentStats)
  models : List (String × AgentStats)
deriving DecidableEq

/-- The defaultdict initial value of one session's analysis entry. -/
def empty_analysis : SessionAnalysis := ⟨0, 0, 0, [], []⟩

/-- The per-row mutation of one session's analysis entry (cost_analysis.py
57–67).  The CSV row carries the same fields as the record it was written
from (the textual round trip of ints and floats through the CSV is exact),
so rows are modelled as `LLMCallMetrics` values. -/
def analysis_inc (row : LLMCallMetrics) (s : SessionAnalysis) :
    SessionAnalysis :=
  { calls := s.calls + 1
    tokens := s.tokens + row.total_tokens
    cost := s.cost + row.total_cost
    agents := upsert row.agent_name zeroStats (incStats row) s.agents
    models := upsert row.model zeroStats (incStats row) s.models }

/-- `analyze_by_session` (cost_analysis.py 42–69): defaultdict grouping of
the log rows by session, in first-appearance order. -/
def analyze_by_session (rows : List LLMCallMetrics) :
    List (String × SessionAnalysis) :=
  rows.foldl
    (fun acc row => upsert row.session_id empty_analysis (analysis_inc row) acc)
    []

/-- The view of a live session rollup as an analysis aggregate: the live
`total_calls`/`total_tokens`/`total_cost` correspond to the analysis
`calls`/`tokens`/`cost`, and the breakdowns correspond directly. -/
def rollup_view (s : SessionData) : SessionAnalysis :=
  ⟨s.total_calls, s.total_tokens, s.total_cost, s.agents, s.models⟩

/-! ## Trace logger (`observability/__init__.py`) -/

/-- A Python string, modelled as its sequence of code points (slicing
`s[:200]` is `List.take 200`). -/
def PyStr : Type := List Char

instance : DecidableEq PyStr := by
  unfold PyStr
  infer_instance

/-- Python truthiness of an `Optional[str]`: `None` and `""` are falsy
(`if error:` at observability/__init__.py 66). -/
def truthy_str : Option PyStr → Option PyStr
  | none => none
  | some s => if s = [] then none else some s

/-- The typed payload dict of one trace event. -/
inductive TraceEventData : Type
  | workflow_start (trace_id workflow_name user_input : String)
  | workflow_end (trace_id : Option String) (workflow_name : Option String)
      (status : String) (error : Option PyStr)
  | agent_response (agent_name : String) (response : PyStr)
      (metadata : List (String × String))
  | agent_start (agent_name : String) (activity : String)
  | tool_start (tool_name : String) (args : List (String × String))
  | error_event (error : PyStr) (exception_type : Option String)
      (context : List (String × String))
deriving DecidableEq

/-- One entry of `self.traces` (observability/__init__.py 36–40):
the `.value` string of the event type, the timestamp, and the data dict. -/
structure TraceEvent where
  event_type : String
  timestamp : String
  data : TraceEventData
deriving DecidableEq

/-- Mutable state of one `TraceLogger` instance
(observability/__init__.py 29–32). -/
structure TraceLoggerState where
  traces : List TraceEvent
  current_workflow : Option String
  current_trace_id : Option String
deriving DecidableEq

/-- A freshly constructed `TraceLogger`. -/
def empty_trace_logger : TraceLoggerState := ⟨[], none, none⟩

/-- `TraceLogger.log_event` (observability/__init__.py 34–42). -/
def log_event (st : TraceLoggerState) (event_type : String) (now : String)
    (data : TraceEventData) : TraceLoggerState :=
  { st with traces := st.traces ++ [⟨event_type, now, data⟩] }

/-- `TraceLogger.start_workflow` (observability/__init__.py 44–56); the
fresh `uuid.uuid4()` is the `trace_id` parameter. -/
def start_workflow (st : TraceLoggerState) (workflow_name user_input : String)
    (trace_id now : String) : String × TraceLoggerState :=
  let st1 := { st with current_trace_id := some trace_id,
                       current_workflow := some workflow_name }
  (trace_id,
   log_event st1 "workflow_start" now
     (.workflow_start trace_id workflow_name user_input))

/-- The summary dict returned by `end_workflow`. -/
structure WorkflowSummary where
  trace_id : Option String
  status : String
  num_events : ℕ
deriving DecidableEq

/-- `TraceLogger.end_workflow` (observability/__init__.py 58–78): append a
`workflow_end` event carrying the current trace id and workflow name,
report `num_events` over the sequence including that event, then clear
`current_workflow` only — `current_trace_id` is left as it was. -/
def end_workflow (st : TraceLoggerState) (status : String)
    (error : Option PyStr) (now : String) :
    WorkflowSummary × TraceLoggerState :=
  let st1 := log_event st "workflow_end" now
    (.workflow_end st.current_trace_id st.current_workflow status
      (truthy_str error))
  (⟨st.current_trace_id, status, st1.traces.length⟩,
   { st1 with current_workflow := none })

/-- `TraceLogger.log_agent_response` (observability/__init__.py 80–86):
the stored response is `response[:200] if len(response) > 200 else
response`; `metadata or {}` defaults a missing dict to empty. -/
def log_agent_response (st : TraceLoggerState) (agent_name : String)
    (response : PyStr) (metadata : Option (List (String × String)))
    (now : String) : TraceLoggerState :=
  log_event st "agent_response" now
    (.agent_response agent_name
      (if 200 < response.length then response.take 200 else response)
      (metadata.getD []))

/-- `TraceLogger.get_traces` (observability/__init__.py 114–116). -/
def get_traces (st : TraceLoggerState) : List TraceEvent :=
  st.traces

/-- `TraceLogger.clear_traces` (observability/__init__.py 118–122). -/
def clear_traces (_st : TraceLoggerState) : TraceLoggerState :=
  ⟨[], none, none⟩

/-! ## Concrete inputs used by witnesses and counterexamples -/

/-- A call with a negative input-token count. -/
def c2args : CallArgs :=
  ⟨"s1", "Planner", "gpt-4o-mini", "openai", -5, 0, 0, "t0", true, true⟩

/-- An ordinary successful call. -/
def c3args_ok : CallArgs :=
  ⟨"s1", "Planner", "gpt-4o-mini", "openai", 1000, 500, 12, "t1", true, true⟩

/-- The same call when the CSV append raises. -/
def c3args_fail : CallArgs := { c3args_ok with csv_ok := false }

/-- A successful call used to exercise the restart round trip. -/
def c5call : CallArgs :=
  ⟨"s1", "Recon", "gpt-4o", "openai", 10, 20, 1, "t2", true, true⟩

/-- A two-call single-session run over two agents and two models. -/
def c1calls : List CallArgs :=
  [ ⟨"s1", "Planner", "gpt-4o-mini", "openai", 1000, 500, 0, "t0", true, true⟩,
    ⟨"s1", "Recon", "gpt-4o", "openai", 2000, 1000, 0, "t1", true, true⟩ ]

/-- The session rollup produced by `c1calls`. -/
def c1session : SessionData :=
  ⟨"s1", "t0", "t1", 2, 4500, 0.02545,
   [("Planner", ⟨1, 1500, 0.00045⟩), ("Recon", ⟨1, 3000, 0.025⟩)],
   [("gpt-4o-mini", ⟨1, 1500, 0.00045⟩), ("gpt-4o", ⟨1, 3000, 0.025⟩)]⟩

/-! ## Helper lemmas -/

theorem alookup_upsert_self {α : Type} (k : String) (init : α) (f : α → α)
    (l : List (String × α)) :
    alookup k (upsert k init f l) = some (f ((alookup k l).getD init)) := by
  induction l with
  | nil => simp [alookup, upsert]
  | cons p rest ih =>
    obtain ⟨k', v⟩ := p
    by_cases h : k' = k
    · simp [alookup, upsert, h]
    · simp [alookup, upsert, h, ih]

theorem alookup_upsert_ne {α : Type} (k k' : String) (init : α) (f : α → α)
    (l : List (String × α)) (h : k' ≠ k) :
    alookup k' (upsert k init f l) = alookup k' l := by
  have h' : ¬(k = k') := fun e => h e.symm
  induction l with
  | nil => simp [alookup, upsert, h']
  | cons p rest ih =>
    obtain ⟨k₀, v⟩ := p
    by_cases h0 : k₀ = k
    · subst h0
      simp [alookup, upsert, h']
    · simp [alookup, upsert, h0, ih]

theorem sum_by_upsert {α β : Type} [AddCommMonoid β] (g : α → β) (c : β)
    (k : String) (init : α) (f : α → α) (l : List (String × α))
    (hf : ∀ v, g (f v) = g v + c) (hi : g init = 0) :
    sum_by g (upsert k init f l) = sum_by g l + c := by
  induction l with
  | nil => simp [sum_by, upsert, hf, hi]
  | cons p rest ih =>
    obtain ⟨k', v⟩ := p
    by_cases h : k' = k
    · rw [show upsert k init f ((k', v) :: rest) = (k', f v) :: rest by
        simp [upsert, h]]
      simp only [sum_by, List.map_cons, List.sum_cons]
      rw [hf, add_right_comm]
    · rw [show upsert k init f ((k', v) :: rest) =
          (k', v) :: upsert k init f rest by simp [upsert, h]]
      simp only [sum_by, List.map_cons, List.sum_cons]
      simp only [sum_by] at ih
      rw [ih, ← add_assoc]

theorem log_to_csv_sessions (st : TrackerState) (m : LLMCallMetrics)
    (ok : Bool) : (log_to_csv st m ok).session_costs = st.session_costs := by
  unfold log_to_csv
  split <;> rfl

theorem save_session_costs_sessions (st : TrackerState) (ok : Bool) :
    (save_session_costs st ok).session_costs = st.session_costs := by
  unfold save_session_costs
  split <;> rfl

theorem track_call_sessions (st : TrackerState) (a : CallArgs) :
    (track_call st a).2.session_costs =
      update_session (mkMetrics a) st.session_costs := by
  unfold track_call
  rw [save_session_costs_sessions]
  simp [log_to_csv_sessions]

theorem run_calls_append (st : TrackerState) (l1 l2 : List CallArgs) :
    run_calls st (l1 ++ l2) = run_calls (run_calls st l1) l2 := by
  induction l1 generalizing st with
  | nil => rfl
  | cons a rest ih => simp [run_calls, ih]

theorem run_calls_sessions (st : TrackerState) (calls : List CallArgs) :
    (run_calls st calls).session_costs =
      (call_records calls).foldl (fun acc m => update_session m acc)
        st.session_costs := by
  induction calls generalizing st with
  | nil => rfl
  | cons a rest ih =>
    show (run_calls (track_call st a).2 rest).session_costs = _
    rw [ih, track_call_sessions]
    simp only [call_records, List.map_cons, List.foldl_cons]

theorem pricing_of_eq_of_miss (model : String)
    (h : alookup model MODEL_PRICING = none) :
    pricing_of model = pricing_of "gpt-4o-mini" := by
  unfold pricing_of
  rw [h]
  rfl

theorem calculate_cost_congr (m1 m2 : String) (i o : ℤ)
    (h : pricing_of m1 = pricing_of m2) :
    calculate_cost m1 i o = calculate_cost m2 i o := by
  unfold calculate_cost
  rw [h]

/-! ## Claim theorems -/

/-- C4: `calculate_cost` returns the three costs rounded to six decimal
digits from `(count / 1_000_000) * rate`, with rates looked up by exact
string match and falling back to the `gpt-4o-mini` tier on a miss; in
particular `calculate_cost "gpt-4o-mini" 1000000 0` is
`{0.15, 0.0, 0.15}`, and any unknown model prices as the default tier. -/
theorem c4_calculate_cost_formula (model : String) (i o : ℤ)
    (_hi : 0 ≤ i) (_ho : 0 ≤ o) :
    calculate_cost model i o =
      ⟨round6 (((i : ℚ) / 1000000) * (pricing_of model).1),
       round6 (((o : ℚ) / 1000000) * (pricing_of model).2),
       round6 (((i : ℚ) / 1000000) * (pricing_of model).1 +
               ((o : ℚ) / 1000000) * (pricing_of model).2)⟩ ∧
    calculate_cost "gpt-4o-mini" 1000000 0 = ⟨0.15, 0, 0.15⟩ ∧
    (alookup model MODEL_PRICING = none →
      calculate_cost model i o = calculate_cost "gpt-4o-mini" i o) := by
  refine ⟨rfl, by with_unfolding_all decide, fun h => ?_⟩
  exact calculate_cost_congr model "gpt-4o-mini" i o (pricing_of_eq_of_miss model h)

/-- C4 witness: the theorem applied at `"gpt-4o-mini"`/`"unknown-model-x"`
with one million input tokens. -/
theorem c4_witness :
    (0 : ℤ) ≤ 1000000 ∧
    calculate_cost "gpt-4o-mini" 1000000 0 = ⟨0.15, 0, 0.15⟩ ∧
    calculate_cost "unknown-model-x" 1000000 1000000 =
      calculate_cost "gpt-4o-mini" 1000000 1000000 :=
  ⟨by decide,
   (c4_calculate_cost_formula "gpt-4o-mini" 1000000 0 (by decide) (by decide)).2.1,
   (c4_calculate_cost_formula "unknown-model-x" 1000000 1000000 (by decide)
     (by decide)).2.2 (by decide)⟩

/-- C2 counterexample: `calculate_cost` accepts negative token counts and
returns a negative total cost, and `track_call` with a negative count
mutates the session mapping — there is no `InvalidInput` rejection in the
code (cost_tracker.py 110–125 performs no validation). -/
theorem c2_counterexample :
    (calculate_cost "gpt-4o-mini" (-1000000) 0).total_cost < 0 ∧
    (track_call empty_tracker
      ⟨"s1", "Planner", "gpt-4o-mini", "openai", -1000000, 0, 0, "t0",
        true, true⟩).2.session_costs ≠ [] := by
  constructor
  · with_unfolding_all decide
  · rw [track_call_sessions]
    show update_session _ [] ≠ []
    simp [update_session, upsert]

/-- C2 (amended): `calculate_cost` and `track_call` perform no input
validation: a call with a negative token count does not fail — the Call
Record is still created with the negative counts and the session rollup is
mutated by the usual increment. -/
theorem c2_amended_no_validation (st : TrackerState) (a : CallArgs)
    (_h : a.input_tokens < 0 ∨ a.output_tokens < 0) :
    (track_call st a).1 = mkMetrics a ∧
    alookup a.session_id (track_call st a).2.session_costs =
      some (incSession (mkMetrics a)
        ((alookup a.session_id st.session_costs).getD
          (freshSession (mkMetrics a)))) := by
  refine ⟨rfl, ?_⟩
  rw [track_call_sessions]
  exact alookup_upsert_self _ _ _ _

/-- C2 witness: the amended theorem at a concrete negative-count call. -/
theorem c2_witness :
    (c2args.input_tokens < 0 ∨ c2args.output_tokens < 0) ∧
    ((track_call empty_tracker c2args).1 = mkMetrics c2args ∧
     alookup c2args.session_id
         (track_call empty_tracker c2args).2.session_costs =
       some (incSession (mkMetrics c2args)
         ((alookup c2args.session_id empty_tracker.session_costs).getD
           (freshSession (mkMetrics c2args))))) :=
  ⟨Or.inl (by decide),
   c2_amended_no_validation empty_tracker c2args (Or.inl (by decide))⟩

/-- C3 counterexample: when the CSV append fails, the caller-visible
outcome of `track_call` is identical to the successful run (same returned
record, same session mapping) — no `PersistenceError` reaches the caller;
`_log_to_csv` (cost_tracker.py 203–204) catches every exception and only
logs it.  Only the log file differs. -/
theorem c3_counterexample :
    (track_call empty_tracker c3args_fail).1 =
      (track_call empty_tracker c3args_ok).1 ∧
    (track_call empty_tracker c3args_fail).2.session_costs =
      (track_call empty_tracker c3args_ok).2.session_costs ∧
    (track_call empty_tracker c3args_fail).2.csv_rows = [] ∧
    (track_call empty_tracker c3args_fail).2.logged_errors =
      ["Failed to log to CSV"] :=
  ⟨rfl, rfl, rfl, rfl⟩

/-- C3 (amended): an append failure is caught inside `_log_to_csv` and
logged, never reported to the caller; the in-memory aggregate update still
occurs exactly as on success, with no roll-back, and the CSV is left
unchanged. -/
theorem c3_amended_append_failure_swallowed (st : TrackerState)
    (a : CallArgs) (hcsv : a.csv_ok = false) :
    (track_call st a).1 = (track_call st { a with csv_ok := true }).1 ∧
    (track_call st a).2.session_costs =
      (track_call st { a with csv_ok := true }).2.session_costs ∧
    (track_call st a).2.csv_rows = st.csv_rows ∧
    (track_call st a).2.logged_errors =
      (st.logged_errors ++ ["Failed to log to CSV"]) ++
        (if a.save_ok then [] else ["Failed to save session costs"]) := by
  refine ⟨rfl, ?_, ?_, ?_⟩
  · rw [track_call_sessions, track_call_sessions]
    rfl
  · unfold track_call save_session_costs log_to_csv
    rw [hcsv]
    cases hs : a.save_ok <;> simp
  · unfold track_call save_session_costs log_to_csv
    rw [hcsv]
    cases hs : a.save_ok <;> simp

/-- C3 witness: the amended theorem at a concrete failing append. -/
theorem c3_witness :
    c3args_fail.csv_ok = false ∧
    ((track_call empty_tracker c3args_fail).1 =
       (track_call empty_tracker { c3args_fail with csv_ok := true }).1 ∧
     (track_call empty_tracker c3args_fail).2.session_costs =
       (track_call empty_tracker
         { c3args_fail with csv_ok := true }).2.session_costs ∧
     (track_call empty_tracker c3args_fail).2.csv_rows =
       empty_tracker.csv_rows ∧
     (track_call empty_tracker c3args_fail).2.logged_errors =
       (empty_tracker.logged_errors ++ ["Failed to log to CSV"]) ++
         (if c3args_fail.save_ok then []
          else ["Failed to save session costs"])) :=
  ⟨rfl, c3_amended_append_failure_swallowed empty_tracker c3args_fail rfl⟩

/-- C5: after a run whose final snapshot save succeeded, constructing a
fresh tracker against the same directory and calling `get_all_sessions`
returns the pre-restart session mapping. -/
theorem c5_restart_roundtrip (calls : List CallArgs) (c : CallArgs)
    (hs : c.save_ok = true) :
    get_all_sessions
      (init_tracker
        (run_calls empty_tracker (calls ++ [c])).snapshot_file
        (some (run_calls empty_tracker (calls ++ [c])).csv_rows)) =
    get_all_sessions (run_calls empty_tracker (calls ++ [c])) := by
  have hsnap : (run_calls empty_tracker (calls ++ [c])).snapshot_file =
      .snapshot (run_calls empty_tracker (calls ++ [c])).session_costs := by
    rw [run_calls_append]
    show (track_call _ c).2.snapshot_file =
      SnapshotFile.snapshot (track_call _ c).2.session_costs
    unfold track_call save_session_costs
    rw [hs]
    simp
  rw [hsnap]
  rfl

/-- C5 witness: a one-call run with a successful save. -/
theorem c5_witness :
    c5call.save_ok = true ∧
    get_all_sessions
      (init_tracker
        (run_calls empty_tracker ([] ++ [c5call])).snapshot_file
        (some (run_calls empty_tracker ([] ++ [c5call])).csv_rows)) =
    get_all_sessions (run_calls empty_tracker ([] ++ [c5call])) :=
  ⟨rfl, c5_restart_roundtrip [] c5call rfl⟩

/-- C7: when the snapshot file's contents fail to parse, construction of
the tracker completes normally (it is a total function), the session
mapping starts empty, and the failure is logged. -/
theorem c7_parse_failure_starts_empty (raw : String)
    (existing_csv : Option (List LLMCallMetrics)) :
    init_tracker (.malformed raw) existing_csv =
      { csv_rows := existing_csv.getD []
        session_costs := []
        snapshot_file := .malformed raw
        logged_errors := ["Failed to load session costs"] } := rfl

/-- C9: the response payload stored by `log_agent_response` is the response
itself when its length is at most 200 code points and exactly its first 200
code points otherwise (the `if 200 < length` expression below reduces to
`response` in the first case and to `response.take 200` in the second), and
the stored payload never exceeds 200 code points. -/
theorem c9_response_truncation (st : TraceLoggerState) (agent : String)
    (response : PyStr) (metadata : Option (List (String × String)))
    (now : String) :
    (log_agent_response st agent response metadata now).traces =
      st.traces ++
        [⟨"agent_response", now,
          .agent_response agent
            (if 200 < response.length then response.take 200 else response)
            (metadata.getD [])⟩] ∧
    (if 200 < response.length then response.take 200 else response).length
      ≤ 200 := by
  refine ⟨rfl, ?_⟩
  by_cases h : 200 < response.length
  · simp [h, List.length_take]
  · simp [h]
    omega

/-- C10: `end_workflow` clears only `current_workflow` (to `none`), leaves
`current_trace_id` unchanged, and only appends one `workflow_end` event to
the sequence; hence a second `end_workflow` without an intervening
`start_workflow` reports the previous workflow's trace id with a `none`
workflow name; `clear_traces` resets the events together with both the
workflow pointer and the trace id. -/
theorem c10_end_workflow_frame (st : TraceLoggerState)
    (status status' : String) (err err' : Option PyStr) (now now' : String) :
    (end_workflow st status err now).2.current_workflow = none ∧
    (end_workflow st status err now).2.current_trace_id =
      st.current_trace_id ∧
    (end_workflow st status err now).2.traces =
      st.traces ++
        [⟨"workflow_end", now,
          .workflow_end st.current_trace_id st.current_workflow status
            (truthy_str err)⟩] ∧
    (end_workflow (end_workflow st status err now).2 status' err' now').1 =
      ⟨st.current_trace_id, status', st.traces.length + 2⟩ ∧
    (end_workflow (end_workflow st status err now).2 status' err' now').2.traces =
      st.traces ++
        [⟨"workflow_end", now,
          .workflow_end st.current_trace_id st.current_workflow status
            (truthy_str err)⟩,
         ⟨"workflow_end", now',
          .workflow_end st.current_trace_id none status'
            (truthy_str err')⟩] ∧
    clear_traces st = ⟨[], none, none⟩ := by
  refine ⟨rfl, rfl, rfl, ?_, ?_, rfl⟩
  · simp [end_workflow, log_event]
  · simp [end_workflow, log_event]

theorem session_ok_fresh (m : LLMCallMetrics) :
    session_ok (freshSession m) [] := by
  simp [session_ok, freshSession, records_tokens, records_cost, sum_by]

theorem session_ok_inc (m : LLMCallMetrics) (s : SessionData)
    (rs : List LLMCallMetrics) (h : session_ok s rs) :
    session_ok (incSession m s) (rs ++ [m]) := by
  obtain ⟨h1, h2, h3, h4, h5, h6, h7, h8, h9⟩ := h
  have hcalls : ∀ v, (incStats m v).calls = v.calls + 1 := fun _ => rfl
  have htok : ∀ v, (incStats m v).tokens = v.tokens + m.total_tokens :=
    fun _ => rfl
  have hcost : ∀ v, (incStats m v).cost = v.cost + m.total_cost :=
    fun _ => rfl
  refine ⟨?_, ?_, ?_, ?_, ?_, ?_, ?_, ?_, ?_⟩
  · show s.total_calls + 1 = ((rs ++ [m]).length : ℤ)
    rw [h1]
    simp
  · show s.total_tokens + m.total_tokens = records_tokens (rs ++ [m])
    rw [h2]
    simp [records_tokens]
  · show s.total_cost + m.total_cost = records_cost (rs ++ [m])
    rw [h3]
    simp [records_cost]
  · show s.total_calls + 1 = sum_by AgentStats.calls
      (upsert m.agent_name zeroStats (incStats m) s.agents)
    rw [sum_by_upsert AgentStats.calls 1 _ _ _ _ hcalls rfl, h4]
  · show s.total_tokens + m.total_tokens = sum_by AgentStats.tokens
      (upsert m.agent_name zeroStats (incStats m) s.agents)
    rw [sum_by_upsert AgentStats.tokens m.total_tokens _ _ _ _ htok rfl, h5]
  · show s.total_cost + m.total_cost = sum_by AgentStats.cost
      (upsert m.agent_name zeroStats (incStats m) s.agents)
    rw [sum_by_upsert AgentStats.cost m.total_cost _ _ _ _ hcost rfl, h6]
  · show s.total_calls + 1 = sum_by AgentStats.calls
      (upsert m.model zeroStats (incStats m) s.models)
    rw [sum_by_upsert AgentStats.calls 1 _ _ _ _ hcalls rfl, h7]
  · show s.total_tokens + m.total_tokens = sum_by AgentStats.tokens
      (upsert m.model zeroStats (incStats m) s.models)
    rw [sum_by_upsert AgentStats.tokens m.total_tokens _ _ _ _ htok rfl, h8]
  · show s.total_cost + m.total_cost = sum_by AgentStats.cost
      (upsert m.model zeroStats (incStats m) s.models)
    rw [sum_by_upsert AgentStats.cost m.total_cost _ _ _ _ hcost rfl, h9]

theorem fold_update_ok (ms : List LLMCallMetrics) :
    ∀ (prev : List LLMCallMetrics) (acc : Sessions),
    (∀ sid s, alookup sid acc = some s →
      session_ok s (session_records sid prev)) →
    (∀ sid, alookup sid acc = none → session_records sid prev = []) →
    ((∀ sid s,
        alookup sid (ms.foldl (fun acc m => update_session m acc) acc) =
          some s →
        session_ok s (session_records sid (prev ++ ms))) ∧
     (∀ sid,
        alookup sid (ms.foldl (fun acc m => update_session m acc) acc) =
          none →
        session_records sid (prev ++ ms) = [])) := by
  induction ms with
  | nil =>
    intro prev acc h1 h2
    refine ⟨fun sid s h => ?_, fun sid h => ?_⟩
    · simpa using h1 sid s (by simpa using h)
    · simpa using h2 sid (by simpa using h)
  | cons m rest ih =>
    intro prev acc h1 h2
    have key := ih (prev ++ [m]) (update_session m acc) ?_ ?_
    · refine ⟨fun sid s h => ?_, fun sid h => ?_⟩
      · have := key.1 sid s (by simpa using h)
        simpa [List.append_assoc] using this
      · have := key.2 sid (by simpa using h)
        simpa [List.append_assoc] using this
    · intro sid s h
      by_cases hsid : sid = m.session_id
      · subst hsid
        rw [update_session, alookup_upsert_self] at h
        have hrec : session_records m.session_id (prev ++ [m]) =
            session_records m.session_id prev ++ [m] := by
          simp [session_records, List.filter_append]
        rw [hrec]
        cases hacc : alookup m.session_id acc with
        | none =>
          rw [hacc] at h
          have hs := Option.some.inj h
          rw [← hs, h2 m.session_id hacc]
          simpa using session_ok_inc m (freshSession m) []
            (session_ok_fresh m)
        | some s₀ =>
          rw [hacc] at h
          have hs := Option.some.inj h
          rw [← hs]
          exact session_ok_inc m s₀ _ (h1 m.session_id s₀ hacc)
      · rw [update_session, alookup_upsert_ne _ _ _ _ _ hsid] at h
        have h' : ¬(m.session_id = sid) := fun e => hsid e.symm
        have hrec : session_records sid (prev ++ [m]) =
            session_records sid prev := by
          simp [session_records, List.filter_append, h']
        rw [hrec]
        exact h1 sid s h
    · intro sid h
      by_cases hsid : sid = m.session_id
      · subst hsid
        rw [update_session, alookup_upsert_self] at h
        exact Option.noConfusion h
      · rw [update_session, alookup_upsert_ne _ _ _ _ _ hsid] at h
        have h' : ¬(m.session_id = sid) := fun e => hsid e.symm
        have hprev := h2 sid h
        simp only [session_records, List.filter_append] at hprev ⊢
        simp [h', hprev]

theorem empty_tracker_sessions : empty_tracker.session_costs = [] := rfl

/-- C1: for every sequence of `track_call` invocations from an empty
tracker and every session present in the rollup mapping, the rollup's
`total_calls`, `total_tokens` and `total_cost` each equal the fold over
the Call Records returned for that session, and also the sum over its
`agents` (`by_agent`) entries, and also the sum over its `models`
(`by_model`) entries. -/
theorem c1_rollup_invariant (calls : List CallArgs) (sid : String)
    (s : SessionData)
    (h : alookup sid (run_calls empty_tracker calls).session_costs =
      some s) :
    s.total_calls = ((session_records sid (call_records calls)).length : ℤ) ∧
    s.total_tokens = records_tokens (session_records sid (call_records calls)) ∧
    s.total_cost = records_cost (session_records sid (call_records calls)) ∧
    s.total_calls = sum_by AgentStats.calls s.agents ∧
    s.total_tokens = sum_by AgentStats.tokens s.agents ∧
    s.total_cost = sum_by AgentStats.cost s.agents ∧
    s.total_calls = sum_by AgentStats.calls s.models ∧
    s.total_tokens = sum_by AgentStats.tokens s.models ∧
    s.total_cost = sum_by AgentStats.cost s.models := by
  rw [run_calls_sessions, empty_tracker_sessions] at h
  have base1 : ∀ sid' s', alookup sid' ([] : Sessions) = some s' →
      session_ok s' (session_records sid' []) := by
    intro sid' s' hh
    exact absurd hh (by simp [alookup])
  have base2 : ∀ sid', alookup sid' ([] : Sessions) = none →
      session_records sid' [] = [] := by
    intro sid' _
    simp [session_records]
  have := (fold_update_ok (call_records calls) [] [] base1 base2).1 sid s
    (by simpa using h)
  simpa [session_ok] using this

/-- C1 witness: the invariant instantiated on a concrete two-call run. -/
theorem c1_witness :
    alookup "s1" (run_calls empty_tracker c1calls).session_costs =
      some c1session ∧
    (c1session.total_calls =
        ((session_records "s1" (call_records c1calls)).length : ℤ) ∧
     c1session.total_tokens =
        records_tokens (session_records "s1" (call_records c1calls)) ∧
     c1session.total_cost =
        records_cost (session_records "s1" (call_records c1calls)) ∧
     c1session.total_calls = sum_by AgentStats.calls c1session.agents ∧
     c1session.total_tokens = sum_by AgentStats.tokens c1session.agents ∧
     c1session.total_cost = sum_by AgentStats.cost c1session.agents ∧
     c1session.total_calls = sum_by AgentStats.calls c1session.models ∧
     c1session.total_tokens = sum_by AgentStats.tokens c1session.models ∧
     c1session.total_cost = sum_by AgentStats.cost c1session.models) := by
  have h1 : mkMetrics ⟨"s1", "Planner", "gpt-4o-mini", "openai", 1000, 500,
      0, "t0", true, true⟩ =
      ⟨"t0", "s1", "Planner", "gpt-4o-mini", "openai", 1000, 500, 1500,
        0.00015, 0.0003, 0.00045, 0⟩ := by
    simp [mkMetrics, calculate_cost, pricing_of, MODEL_PRICING, alookup,
      round6, roundHalfEven]
    norm_num
  have h2 : mkMetrics ⟨"s1", "Recon", "gpt-4o", "openai", 2000, 1000,
      0, "t1", true, true⟩ =
      ⟨"t1", "s1", "Recon", "gpt-4o", "openai", 2000, 1000, 3000,
        0.01, 0.015, 0.025, 0⟩ := by
    simp [mkMetrics, calculate_cost, pricing_of, MODEL_PRICING, alookup,
      round6, roundHalfEven]
    norm_num
  have hrun : (run_calls empty_tracker c1calls).session_costs =
      [("s1", c1session)] := by
    show (track_call (track_call empty_tracker
      ⟨"s1", "Planner", "gpt-4o-mini", "openai", 1000, 500, 0, "t0",
        true, true⟩).2
      ⟨"s1", "Recon", "gpt-4o", "openai", 2000, 1000, 0, "t1",
        true, true⟩).2.session_costs = _
    rw [track_call_sessions, track_call_sessions, h1, h2]
    show update_session _ (update_session _ []) = _
    simp [update_session, upsert, freshSession, incSession, incStats,
      zeroStats, c1session]
    norm_num
  have hlook : alookup "s1" (run_calls empty_tracker c1calls).session_costs =
      some c1session := by
    rw [hrun]
    simp [alookup]
  exact ⟨hlook, c1_rollup_invariant c1calls "s1" c1session hlook⟩

theorem upsert_map {α β : Type} (k : String) (i : α) (f : α → α)
    (g : α → β) (f' : β → β) (hf : ∀ v, f' (g v) = g (f v))
    (l : List (String × α)) :
    upsert k (g i) f' (l.map fun p => (p.1, g p.2)) =
      (upsert k i f l).map fun p => (p.1, g p.2) := by
  induction l with
  | nil => simp [upsert, hf]
  | cons p rest ih =>
    obtain ⟨k', v⟩ := p
    by_cases h : k' = k <;> simp [upsert, h, hf, ih]

theorem analyze_fold_general (rows : List LLMCallMetrics) :
    ∀ acc : Sessions,
    rows.foldl (fun acc row =>
        upsert row.session_id empty_analysis (analysis_inc row) acc)
      (acc.map fun p => (p.1, rollup_view p.2)) =
    (rows.foldl (fun acc m => update_session m acc) acc).map
      (fun p => (p.1, rollup_view p.2)) := by
  induction rows with
  | nil => intro acc; rfl
  | cons m rest ih =>
    intro acc
    simp only [List.foldl_cons]
    have step : upsert m.session_id empty_analysis (analysis_inc m)
        (acc.map fun p => (p.1, rollup_view p.2)) =
        (update_session m acc).map fun p => (p.1, rollup_view p.2) := by
      have hinit : empty_analysis = rollup_view (freshSession m) := rfl
      rw [hinit, update_session]
      exact upsert_map m.session_id (freshSession m) (incSession m)
        rollup_view (analysis_inc m) (fun _ => rfl) acc
    rw [step]
    exact ih (update_session m acc)

theorem empty_tracker_csv : empty_tracker.csv_rows = [] := rfl

theorem run_calls_csv (st : TrackerState) (calls : List CallArgs)
    (hok : ∀ a ∈ calls, a.csv_ok = true) :
    (run_calls st calls).csv_rows = st.csv_rows ++ call_records calls := by
  induction calls generalizing st with
  | nil => simp [run_calls, call_records]
  | cons a rest ih =>
    have ha : a.csv_ok = true := hok a (List.mem_cons_self a rest)
    have hcsv : (track_call st a).2.csv_rows =
        st.csv_rows ++ [mkMetrics a] := by
      unfold track_call save_session_costs log_to_csv
      rw [ha]
      cases hs : a.save_ok <;> simp
    show (run_calls (track_call st a).2 rest).csv_rows = _
    rw [ih (track_call st a).2 (fun b hb => hok b (List.mem_cons_of_mem a hb)),
      hcsv]
    simp [call_records]

/-- C6: for a run in which every Call Record was successfully appended to
the CSV (any interleaving of sessions), the per-session aggregates the
analysis path computes from the CSV rows (`analyze_by_session`) coincide,
session by session, with the live session rollups: same `calls`/`tokens`/
`cost` (the live `total_calls`/`total_tokens`/`total_cost`) and the very
same `agents` and `models` breakdowns, in the same order. -/
theorem c6_reanalysis_matches_live (calls : List CallArgs)
    (hok : ∀ a ∈ calls, a.csv_ok = true) :
    analyze_by_session (run_calls empty_tracker calls).csv_rows =
      (run_calls empty_tracker calls).session_costs.map
        (fun p => (p.1, rollup_view p.2)) := by
  rw [run_calls_csv empty_tracker calls hok, empty_tracker_csv,
    run_calls_sessions, empty_tracker_sessions, List.nil_append]
  have := analyze_fold_general (call_records calls) []
  simpa [analyze_by_session] using this

/-- C6 witness: the equivalence on a concrete two-call run. -/
theorem c6_witness :
    (∀ a ∈ c1calls, a.csv_ok = true) ∧
    analyze_by_session (run_calls empty_tracker c1calls).csv_rows =
      (run_calls empty_tracker c1calls).session_costs.map
        (fun p => (p.1, rollup_view p.2)) :=
  ⟨by decide, c6_reanalysis_matches_live c1calls (by decide)⟩
